import Mathlib

/-!
Verification development for the news-agent backend
(session-scoped conversational retrieval loop).

The definitions below are a shallow embedding of the Python sources:

* `src/services/session_service.py`  — Mongo-backed session store
  (`create_session`, `add_message`, `get_messages`, `clear_messages`,
  `update_session_title`, `get_session`);
* `src/services/session_title_service.py` — `SessionTitleGenerator.generate_title`;
* `src/services/newsagentservice.py` — `SerperNewsSearchTool.search`,
  `NewsAgentService.generate_response`, `NewsAgentService.clear_conversation`;
* `src/api_routes/newsroutes.py` — the `ask_session` orchestrator route.

Python dictionaries for message documents are modelled as association
lists in insertion order (`Msg`); MongoDB `find_one` / `update_one` act on
the first matching document of the collection list.  External providers
(Gemini generation, Serper retrieval) are modelled as explicit outcome
parameters threaded through an `Env` record.  The code stores the
assistant role as the string `"ai"`; it realises the spec's abstract
`assistant` role.
-/

/-- A Python/BSON value as it appears in a message document: a string, a
`datetime.utcnow()` timestamp (abstracted to a tick count), or a list
(used for the `sources` citation list). -/
inductive PyVal where
  | str : String → PyVal
  | time : Nat → PyVal
  | list : List PyVal → PyVal

/-- A message document: a Python dict in insertion order. -/
abbrev Msg := List (String × PyVal)

/-- `d[k]` lookup on a dict, `none` when the key is absent. -/
def pyGet (d : Msg) (k : String) : Option PyVal :=
  match d.find? (fun p => p.1 == k) with
  | some p => some p.2
  | none => none

/-- Python `dict` single-key write: overwrites an existing binding in
place (keeping its position), otherwise appends the new binding. -/
def dictSet (d : Msg) (k : String) (v : PyVal) : Msg :=
  if d.any (fun p => p.1 == k) then
    d.map (fun p => if p.1 == k then (k, v) else p)
  else d ++ [(k, v)]

/-- Python `d.update(m)`: fold `dictSet` over the bindings of `m`. -/
def dictUpdate (d : Msg) (m : Msg) : Msg :=
  m.foldl (fun acc kv => dictSet acc kv.1 kv.2) d

/-- `add_message`'s document construction (session_service.py lines 41-49):
base dict `{role, content, timestamp}`, then `message.update(metadata)`
when a non-empty metadata dict was supplied (`if metadata:`). -/
def buildMessage (role content : String) (t : Nat) (metadata : Msg) : Msg :=
  let message : Msg :=
    [("role", PyVal.str role), ("content", PyVal.str content), ("timestamp", PyVal.time t)]
  if metadata.isEmpty then message else dictUpdate message metadata

/-- One entry of the LangChain `ConversationBufferMemory.chat_memory`
buffer: a role-tagged message (`add_user_message` / `add_ai_message`). -/
inductive ChatMsg where
  | user : PyVal → ChatMsg
  | ai : PyVal → ChatMsg

/-- `NewsAgentService.clear_conversation` / `agent.memory.clear()`:
empties the agent memory buffer. -/
def clearMemory (_mem : List ChatMsg) : List ChatMsg := []

/-- One iteration of the replay loop of `ask_session`
(newsroutes.py lines 249-255): `msg['role'] == 'user'` appends a user
entry, `msg['role'] == 'ai'` appends an ai entry, anything else is
skipped. -/
def replayStep (mem : List ChatMsg) (m : Msg) : List ChatMsg :=
  match pyGet m "role" with
  | some (PyVal.str r) =>
      if r = "user" then mem ++ [ChatMsg.user ((pyGet m "content").getD (PyVal.str ""))]
      else if r = "ai" then mem ++ [ChatMsg.ai ((pyGet m "content").getD (PyVal.str ""))]
      else mem
  | _ => mem

/-- `ask_session`'s memory seeding (newsroutes.py lines 247-255):
`agent.memory.clear()` followed by the replay loop over the persisted
history. -/
def seedMemory (mem : List ChatMsg) (history : List Msg) : List ChatMsg :=
  history.foldl replayStep (clearMemory mem)

/-- The role-filtered view of one persisted message: the memory entry
the replay loop produces for it, or `none` when its role is outside
{user, ai} and the message is ignored. -/
def chatOf (m : Msg) : Option ChatMsg :=
  match pyGet m "role" with
  | some (PyVal.str r) =>
      if r = "user" then some (ChatMsg.user ((pyGet m "content").getD (PyVal.str "")))
      else if r = "ai" then some (ChatMsg.ai ((pyGet m "content").getD (PyVal.str "")))
      else none
  | _ => none

/-- `SerperNewsSearchTool.search` (newsagentservice.py lines 35-65):
`resp` is the outcome of the HTTP call, `.ok organic` holding the parsed
`data.get("organic", [])` list; the body returns `results[:limit]`, and
the `except` clause returns `[]` on any provider error.  The function is
total: no exception escapes to the caller. -/
def serperSearch (resp : Except String (List PyVal)) (limit : Nat) : List PyVal :=
  match resp with
  | Except.error _ => []
  | Except.ok organic => organic.take limit

/-- Python `str.strip()` on the character list: drop whitespace from both
ends. -/
def stripChars (l : List Char) : List Char :=
  ((l.dropWhile Char.isWhitespace).reverse.dropWhile Char.isWhitespace).reverse

/-- Python `s.replace(c, '')`: remove every occurrence of the character. -/
def removeAll (c : Char) (l : List Char) : List Char :=
  l.filter (fun x => x ≠ c)

/-- The truncation step shared by both branches of `generate_title`
(session_title_service.py lines 44-45 and 54-57):
`s[:27] + "..."` when `len(s) > 30`, the string unchanged otherwise. -/
def truncate30 (l : List Char) : List Char :=
  if l.length > 30 then l.take 27 ++ ['.', '.', '.'] else l

/-- `SessionTitleGenerator.generate_title` (session_title_service.py
lines 18-60).  `resp` is the outcome of the single `llm.invoke` call
(`.ok content` holds `response.content`).  Success path:
`content.strip()`, then `.replace('"', '').replace("'", "")`, then
truncation.  On any provider failure the `except` clause returns the
deterministic fallback built from the raw query.  Total: never raises. -/
def generate_title (resp : Except String String) (query : String) : String :=
  match resp with
  | Except.ok content =>
      String.mk (truncate30 (removeAll '\'' (removeAll '"' (stripChars content.toList))))
  | Except.error _ => String.mk (truncate30 query.toList)

/-- One step the Generation Provider can take inside the bounded
reasoning loop: emit the final answer, request one retrieval action,
produce unparsable output, or fail (timeout/error). -/
inductive ProviderStep where
  | finalAnswer : String → ProviderStep
  | toolAction : String → ProviderStep
  | unparsable : ProviderStep
  | failure : String → ProviderStep

/-- `true` exactly when the provider step emits a final answer. -/
def ProviderStep.isFinal : ProviderStep → Bool
  | ProviderStep.finalAnswer _ => true
  | _ => false

/-- The external environment of one orchestrated turn: the outcome of
the title-generation `llm.invoke` call, the Generation Provider's step
at each reasoning round, the Serper HTTP outcome per query, and the two
`datetime.utcnow()` readings taken when persisting the user and the
assistant message. -/
structure Env where
  titleResp : Except String String
  agentSteps : Nat → ProviderStep
  serperResp : String → Except String (List PyVal)
  tUser : Nat
  tAi : Nat

/-- Modelled from the spec: the bounded reason → act → observe loop run
by the external LangChain `AgentExecutor` (configured in
`NewsAgentService._create_agent` with `max_iterations=3`; the executor
code itself is a library dependency, not part of this repository).  At
each of up to `fuel` rounds the provider either emits a final answer,
requests one retrieval (whose observation feeds the next round), emits
unparsable output, or fails; exhaustion, unparsable output and provider
failure all surface as an error to `generate_response`'s `except`
clause. -/
def reactRounds (env : Env) : Nat → Nat → Except String String
  | 0, _ => Except.error "Agent stopped due to iteration limit"
  | fuel + 1, i =>
      match env.agentSteps i with
      | ProviderStep.finalAnswer t => Except.ok t
      | ProviderStep.toolAction q =>
          let _observation := serperSearch (env.serperResp q) 5
          reactRounds env fuel (i + 1)
      | ProviderStep.unparsable => Except.error "Could not parse LLM output"
      | ProviderStep.failure e => Except.error e

/-- `self.agent_executor.invoke({"input": query})` with the
`max_iterations=3` bound of `_create_agent`. -/
def runAgentExecutor (env : Env) (_query : String) : Except String String :=
  reactRounds env 3 0

/-- The fixed user-safe apology of `generate_response`'s `except`
clause. -/
def apology : String := "I'm sorry, I encountered an error while processing your request."

/-- The result dict of `NewsAgentService.generate_response`: `sources`
and `error` are `Option`s because the success dict has no `error` key
and the failure dict has no `sources` key (`result.get` then yields
`None`). -/
structure AgentResult where
  success : Bool
  response : String
  sources : Option (List PyVal)
  error : Option String

/-- `NewsAgentService.generate_response` (newsagentservice.py lines
228-253): invoke the executor; on success append the query and the
output to agent memory and issue a fresh retrieval for `sources`; any
exception is caught and converted into `success=False` with the fixed
apology (memory untouched, no `sources` key).  Total: never raises. -/
def generate_response (env : Env) (mem : List ChatMsg) (query : String) :
    AgentResult × List ChatMsg :=
  match runAgentExecutor env query with
  | Except.ok output =>
      let mem1 := mem ++ [ChatMsg.user (PyVal.str query), ChatMsg.ai (PyVal.str output)]
      let search_results := serperSearch (env.serperResp query) 5
      ({ success := true, response := output, sources := some search_results, error := none },
       mem1)
  | Except.error e =>
      ({ success := false, response := apology, sources := none, error := some e }, mem)

/-- A session document of the `chat_sessions` collection, with the
fields `create_session` writes. -/
structure Session where
  session_id : String
  user_id : String
  title : String
  messages : List Msg
  created_at : Nat

/-- The Mongo query filter used throughout session_service.py:
`{"session_id": sid}` plus, when `user_id` is truthy (`if user_id:` —
`None` and the empty string add no filter), `{"user_id": uid}`. -/
def sessionMatches (sid : String) (uid : Option String) (s : Session) : Bool :=
  s.session_id == sid &&
    (match uid with
     | none => true
     | some u => if u.isEmpty then true else s.user_id == u)

/-- Mongo `update_one`: rewrite the first matching document of the
collection, leave everything else unchanged. -/
def updateFirst (p : Session → Bool) (f : Session → Session) : List Session → List Session
  | [] => []
  | s :: rest => if p s then f s :: rest else s :: updateFirst p f rest

/-- `create_session` (session_service.py lines 10-29): insert a fresh
document with an externally generated id, the given title or the
default (`title or "New Conversation"` — an empty title is falsy), an
empty message list and the creation timestamp. -/
def create_session (store : List Session) (user_id : String) (sid : String)
    (title : Option String) (t : Nat) : List Session :=
  store ++ [{ session_id := sid, user_id := user_id,
              title := match title with
                       | some s => if s.isEmpty then "New Conversation" else s
                       | none => "New Conversation",
              messages := [], created_at := t }]

/-- `add_message` (session_service.py lines 32-54): build the message
document and `$push` it onto the `messages` array of the first document
matching `{"session_id": sid}` (no ownership filter); a no-op when no
session matches. -/
def add_message (store : List Session) (sid role content : String) (metadata : Msg)
    (t : Nat) : List Session :=
  updateFirst (sessionMatches sid none)
    (fun s => { s with messages := s.messages ++ [buildMessage role content t metadata] })
    store

/-- `get_messages` (session_service.py lines 57-68): `find_one` with the
scoped query; `[]` when no document matches, otherwise its `messages`
array. -/
def get_messages (store : List Session) (sid : String) (uid : Option String) : List Msg :=
  match store.find? (sessionMatches sid uid) with
  | none => []
  | some s => s.messages

/-- `clear_messages` (session_service.py lines 87-98): `$set` the
`messages` array of the first matching document to `[]`; silent no-op
when nothing matches. -/
def clear_messages (store : List Session) (sid : String) (uid : Option String) :
    List Session :=
  updateFirst (sessionMatches sid uid) (fun s => { s with messages := [] }) store

/-- `update_session_title` (session_service.py lines 112-132): `$set`
the title of the first matching document and report
`modified_count > 0` (false when nothing matched or the stored title
already equals the new one). -/
def update_session_title (store : List Session) (sid title : String)
    (uid : Option String) : List Session × Bool :=
  (updateFirst (sessionMatches sid uid) (fun s => { s with title := title }) store,
   match store.find? (sessionMatches sid uid) with
   | some s => s.title != title
   | none => false)

/-- `get_session` (session_service.py lines 135-149): `find_one` with
the scoped query. -/
def get_session (store : List Session) (sid : String) (uid : Option String) :
    Option Session :=
  store.find? (sessionMatches sid uid)

/-- The metadata dict `ask_session` attaches to the assistant message
(newsroutes.py line 270): `{"sources": sources} if sources else None` —
a missing `sources` key or an empty list is falsy and yields no
metadata. -/
def orchestratorMeta (sources : Option (List PyVal)) : Msg :=
  match sources with
  | some l => if l.isEmpty then [] else [("sources", PyVal.list l)]
  | none => []

/-- The JSON payload of a completed `ask_session` turn: the
`generate_response` dict augmented with `session_id` and, on the first
turn only, `title`. -/
structure AskOk where
  success : Bool
  response : String
  sources : Option (List PyVal)
  error : Option String
  session_id : String
  title : Option String

/-- The response of the `ask_session` route: 404 when the session id
does not exist, 403 when the stored owner differs from the supplied
`user_id`, otherwise the turn's payload. -/
inductive AskResp where
  | notFound : AskResp
  | unauthorized : AskResp
  | ok : AskOk → AskResp

/-- Project the `title` field out of an `ask_session` response
(`none` for the error responses, which carry no title). -/
def AskResp.titleField : AskResp → Option String
  | AskResp.ok r => r.title
  | _ => none

/-- The `ask_session` orchestrator (newsroutes.py lines 210-279), after
request validation: look up the session by id (404 when absent, 403 on
owner mismatch, both before any mutation); load the history; on an
empty history generate and persist a title; clear and replay agent
memory; persist the user message; run `generate_response`; persist the
assistant message with the sources metadata; return the payload with
`session_id` and, on a first turn, `title`.  Returns the response
together with the new store and the new agent memory. -/
def askSession (env : Env) (store : List Session) (mem : List ChatMsg)
    (sid uid query : String) : AskResp × List Session × List ChatMsg :=
  match store.find? (sessionMatches sid none) with
  | none => (AskResp.notFound, store, mem)
  | some s =>
      if s.user_id ≠ uid then (AskResp.unauthorized, store, mem)
      else
        let history := get_messages store sid (some uid)
        let isFirst := history.isEmpty
        let titleOpt : Option String :=
          if isFirst then some (generate_title env.titleResp query) else none
        let store1 :=
          match titleOpt with
          | some t => (update_session_title store sid t none).1
          | none => store
        let mem1 := seedMemory mem history
        let store2 := add_message store1 sid "user" query [] env.tUser
        let res := (generate_response env mem1 query).1
        let mem2 := (generate_response env mem1 query).2
        let store3 := add_message store2 sid "ai" res.response (orchestratorMeta res.sources)
          env.tAi
        (AskResp.ok { success := res.success, response := res.response,
                      sources := res.sources, error := res.error,
                      session_id := sid, title := titleOpt },
         store3, mem2)

/-- `N` successive `ask_session` turns on one session: turn `k` runs in
environment `envs k` with query `qs k`. -/
def iterateAsk (envs : Nat → Env) (qs : Nat → String) (sid uid : String) :
    Nat → List Session × List ChatMsg → List Session × List ChatMsg
  | 0, st => st
  | n + 1, st =>
      let st' := iterateAsk envs qs sid uid n st
      let r := askSession (envs n) st'.1 st'.2 sid uid (qs n)
      (r.2.1, r.2.2)

/-- The stored message array of the session a given id resolves to
(the first document matching `{"session_id": sid}`). -/
def storedMessages (store : List Session) (sid : String) : List Msg :=
  match store.find? (sessionMatches sid none) with
  | some s => s.messages
  | none => []

/-- The stored title of the session a given id resolves to. -/
def storedTitle (store : List Session) (sid : String) : Option String :=
  match store.find? (sessionMatches sid none) with
  | some s => some s.title
  | none => none

/-- The role fields of a stored message sequence, in order. -/
def rolesOf (msgs : List Msg) : List (Option PyVal) :=
  msgs.map (fun m => pyGet m "role")

/-- The role pattern the spec requires after `N` turns: `2N` entries
alternating user/ai (the code's encoding of user/assistant), starting
with user. -/
def userAiPairs : Nat → List (Option PyVal)
  | 0 => []
  | n + 1 => userAiPairs n ++ [some (PyVal.str "user"), some (PyVal.str "ai")]

/-! ### Supporting lemmas -/

theorem replayStep_eq (mem : List ChatMsg) (m : Msg) :
    replayStep mem m = mem ++ (chatOf m).toList := by
  simp only [replayStep, chatOf]
  cases pyGet m "role" with
  | none => simp
  | some v =>
      cases v with
      | str r =>
          by_cases h1 : r = "user"
          · simp [h1]
          · by_cases h2 : r = "ai" <;> simp [h1, h2]
      | time t => simp
      | list l => simp

theorem foldl_replayStep (history : List Msg) :
    ∀ acc : List ChatMsg, history.foldl replayStep acc = acc ++ history.filterMap chatOf := by
  induction history with
  | nil => intro acc; simp
  | cons m rest ih =>
      intro acc
      rw [List.foldl_cons, replayStep_eq, ih]
      cases h : chatOf m <;> simp [List.filterMap_cons, h]

theorem seedMemory_eq (mem : List ChatMsg) (history : List Msg) :
    seedMemory mem history = history.filterMap chatOf := by
  unfold seedMemory clearMemory
  simpa using foldl_replayStep history []

theorem reactRounds_error (env : Env) :
    ∀ fuel i, (∀ j, j < fuel → (env.agentSteps (i + j)).isFinal = false) →
      ∃ e, reactRounds env fuel i = Except.error e := by
  intro fuel
  induction fuel with
  | zero => exact fun i _ => ⟨_, rfl⟩
  | succ n ih =>
      intro i h
      cases hs : env.agentSteps i with
      | finalAnswer t =>
          have h0 := h 0 n.succ_pos
          rw [Nat.add_zero, hs] at h0
          exact absurd h0 (by simp [ProviderStep.isFinal])
      | toolAction q =>
          obtain ⟨e, he⟩ := ih (i + 1) (fun j hj => by
            have hh := h (j + 1) (Nat.succ_lt_succ hj)
            rwa [show i + (j + 1) = i + 1 + j by omega] at hh)
          exact ⟨e, by simp [reactRounds, hs, he]⟩
      | unparsable => exact ⟨"Could not parse LLM output", by simp [reactRounds, hs]⟩
      | failure e => exact ⟨e, by simp [reactRounds, hs]⟩

theorem string_mk_length (l : List Char) : (String.mk l).length = l.length := rfl

theorem string_mk_toList (l : List Char) : (String.mk l).toList = l := rfl

theorem truncate30_length (l : List Char) : (truncate30 l).length ≤ 30 := by
  unfold truncate30
  split
  · simp only [List.length_append, List.length_take, List.length_cons, List.length_nil]
    omega
  · omega

theorem not_mem_removeAll (c : Char) (l : List Char) : c ∉ removeAll c l := by
  simp [removeAll]

theorem not_mem_removeAll_of (c d : Char) (l : List Char) (h : c ∉ l) :
    c ∉ removeAll d l :=
  fun hm => h (List.mem_of_mem_filter hm)

theorem not_mem_truncate30 (c : Char) (l : List Char) (hc : c ∉ l) (hdot : c ≠ '.') :
    c ∉ truncate30 l := by
  unfold truncate30
  split
  · intro hm
    rcases List.mem_append.mp hm with h1 | h2
    · exact hc (List.take_subset _ _ h1)
    · simp at h2
      exact hdot h2
  · exact hc

theorem find?_updateFirst (p : Session → Bool) (f : Session → Session)
    (hp : ∀ x, p (f x) = p x) :
    ∀ (l : List Session) (s : Session), l.find? p = some s →
      (updateFirst p f l).find? p = some (f s) := by
  intro l
  induction l with
  | nil => intro s h; simp at h
  | cons a rest ih =>
      intro s h
      by_cases hpa : p a = true
      · rw [List.find?_cons_of_pos _ hpa] at h
        cases h
        unfold updateFirst
        rw [if_pos hpa]
        exact List.find?_cons_of_pos _ (by rw [hp]; exact hpa)
      · rw [List.find?_cons_of_neg _ (by simpa using hpa)] at h
        unfold updateFirst
        rw [if_neg hpa, List.find?_cons_of_neg _ (by simpa using hpa)]
        exact ih s h

theorem updateFirst_idem (p : Session → Bool) (f : Session → Session)
    (hp : ∀ x, p (f x) = p x) (hf : ∀ x, f (f x) = f x) :
    ∀ l : List Session, updateFirst p f (updateFirst p f l) = updateFirst p f l := by
  intro l
  induction l with
  | nil => rfl
  | cons a rest ih =>
      by_cases hpa : p a = true
      · simp [updateFirst, hpa, hp, hf]
      · simp [updateFirst, hpa, ih]

theorem sessionMatches_none_eq (sid : String) (a : Session) :
    sessionMatches sid none a = (a.session_id == sid) := by
  simp [sessionMatches]

theorem find?_owner_scoped (sid uid : String) :
    ∀ (l : List Session) (s : Session),
      l.find? (sessionMatches sid none) = some s → s.user_id = uid →
      l.find? (sessionMatches sid (some uid)) = some s := by
  intro l
  induction l with
  | nil => intro s h; simp at h
  | cons a rest ih =>
      intro s h howner
      by_cases hpa : sessionMatches sid none a = true
      · rw [List.find?_cons_of_pos _ hpa] at h
        cases h
        apply List.find?_cons_of_pos
        rw [sessionMatches_none_eq] at hpa
        by_cases he : uid.isEmpty <;> simp [sessionMatches, hpa, he, howner]
      · have hpa2 : ¬ sessionMatches sid (some uid) a = true := by
          rw [sessionMatches_none_eq] at hpa
          simp [sessionMatches, hpa]
        rw [List.find?_cons_of_neg _ (by simpa using hpa)] at h
        rw [List.find?_cons_of_neg _ (by simpa using hpa2)]
        exact ih s h howner

theorem get_messages_of_owner (store : List Session) (sid uid : String) (s : Session)
    (hfind : store.find? (sessionMatches sid none) = some s) (howner : s.user_id = uid) :
    get_messages store sid (some uid) = s.messages := by
  unfold get_messages
  rw [find?_owner_scoped sid uid store s hfind howner]

theorem find?_add_message (store : List Session) (sid role content : String) (metadata : Msg)
    (t : Nat) (s : Session) (h : store.find? (sessionMatches sid none) = some s) :
    (add_message store sid role content metadata t).find? (sessionMatches sid none) =
      some { s with messages := s.messages ++ [buildMessage role content t metadata] } :=
  find?_updateFirst (sessionMatches sid none)
    (fun x => { x with messages := x.messages ++ [buildMessage role content t metadata] })
    (fun _ => rfl) store s h

theorem find?_update_title (store : List Session) (sid title : String) (uid : Option String)
    (s : Session) (h : store.find? (sessionMatches sid uid) = some s) :
    (update_session_title store sid title uid).1.find? (sessionMatches sid uid) =
      some { s with title := title } :=
  find?_updateFirst (sessionMatches sid uid) (fun x => { x with title := title })
    (fun _ => rfl) store s h

theorem find?_clear_messages (store : List Session) (sid : String) (uid : Option String)
    (s : Session) (h : store.find? (sessionMatches sid uid) = some s) :
    (clear_messages store sid uid).find? (sessionMatches sid uid) =
      some { s with messages := [] } :=
  find?_updateFirst (sessionMatches sid uid) (fun x => { x with messages := [] })
    (fun _ => rfl) store s h

/-- Full characterization of a validated `ask_session` turn: the payload
mirrors `generate_response` over the replayed memory and carries a title
exactly on an empty-history turn; the session's stored document gains
the user and the assistant message (in that order) and the generated
title on an empty-history turn; the returned memory is the one
`generate_response` leaves behind. -/
theorem askSession_valid (env : Env) (store : List Session) (mem : List ChatMsg)
    (sid uid query : String) (s : Session)
    (hfind : store.find? (sessionMatches sid none) = some s)
    (howner : s.user_id = uid) :
    (askSession env store mem sid uid query).1 =
      AskResp.ok
        { success := (generate_response env (seedMemory mem s.messages) query).1.success,
          response := (generate_response env (seedMemory mem s.messages) query).1.response,
          sources := (generate_response env (seedMemory mem s.messages) query).1.sources,
          error := (generate_response env (seedMemory mem s.messages) query).1.error,
          session_id := sid,
          title := if s.messages.isEmpty then some (generate_title env.titleResp query)
                   else none } ∧
    (askSession env store mem sid uid query).2.1.find? (sessionMatches sid none) =
      some { s with
             title := if s.messages.isEmpty then generate_title env.titleResp query
                      else s.title,
             messages := s.messages ++
               [buildMessage "user" query env.tUser [],
                buildMessage "ai"
                  (generate_response env (seedMemory mem s.messages) query).1.response
                  env.tAi
                  (orchestratorMeta
                    (generate_response env (seedMemory mem s.messages) query).1.sources)] } ∧
    (askSession env store mem sid uid query).2.2 =
      (generate_response env (seedMemory mem s.messages) query).2 := by
  have hmsg : get_messages store sid (some uid) = s.messages :=
    get_messages_of_owner store sid uid s hfind howner
  by_cases hEmpty : s.messages.isEmpty = true
  · refine ⟨?_, ?_, ?_⟩
    · simp [askSession, hfind, hmsg, howner, hEmpty]
    · have g1 := find?_update_title store sid (generate_title env.titleResp query) none s hfind
      have g2 := find?_add_message _ sid "user" query [] env.tUser _ g1
      have g3 := find?_add_message _ sid "ai"
        (generate_response env (seedMemory mem s.messages) query).1.response
        (orchestratorMeta (generate_response env (seedMemory mem s.messages) query).1.sources)
        env.tAi _ g2
      have hstore : (askSession env store mem sid uid query).2.1 =
          add_message
            (add_message
              (update_session_title store sid (generate_title env.titleResp query) none).1
              sid "user" query [] env.tUser)
            sid "ai" (generate_response env (seedMemory mem s.messages) query).1.response
            (orchestratorMeta (generate_response env (seedMemory mem s.messages) query).1.sources)
            env.tAi := by
        simp [askSession, hfind, hmsg, howner, hEmpty]
      rw [hstore, g3]
      simp [hEmpty, List.append_assoc]
    · simp [askSession, hfind, hmsg, howner, hEmpty]
  · refine ⟨?_, ?_, ?_⟩
    · simp [askSession, hfind, hmsg, howner, hEmpty]
    · have g2 := find?_add_message store sid "user" query [] env.tUser s hfind
      have g3 := find?_add_message _ sid "ai"
        (generate_response env (seedMemory mem s.messages) query).1.response
        (orchestratorMeta (generate_response env (seedMemory mem s.messages) query).1.sources)
        env.tAi _ g2
      have hstore : (askSession env store mem sid uid query).2.1 =
          add_message
            (add_message store sid "user" query [] env.tUser)
            sid "ai" (generate_response env (seedMemory mem s.messages) query).1.response
            (orchestratorMeta (generate_response env (seedMemory mem s.messages) query).1.sources)
            env.tAi := by
        simp [askSession, hfind, hmsg, howner, hEmpty]
      rw [hstore, g3]
      simp [hEmpty, List.append_assoc]
    · simp [askSession, hfind, hmsg, howner, hEmpty]

theorem generate_response_failure (env : Env) (mem : List ChatMsg) (query : String)
    (h : (generate_response env mem query).1.success = false) :
    (generate_response env mem query).1.response = apology := by
  unfold generate_response at h ⊢
  cases hr : runAgentExecutor env query <;> simp [hr] at h ⊢

theorem pyGet_role_user (content : String) (t : Nat) :
    pyGet (buildMessage "user" content t []) "role" = some (PyVal.str "user") := rfl

theorem pyGet_role_ai (content : String) (t : Nat) (src : Option (List PyVal)) :
    pyGet (buildMessage "ai" content t (orchestratorMeta src)) "role" =
      some (PyVal.str "ai") := by
  cases src with
  | none => rfl
  | some l =>
      cases l with
      | nil => rfl
      | cons x xs => rfl

theorem userAiPairs_length (N : Nat) : (userAiPairs N).length = 2 * N := by
  induction N with
  | zero => rfl
  | succ n ih => simp [userAiPairs, ih]; omega

theorem iterateAsk_invariant (envs : Nat → Env) (qs : Nat → String) (sid uid : String)
    (store : List Session) (mem : List ChatMsg) (s0 : Session)
    (hfind : store.find? (sessionMatches sid none) = some s0)
    (howner : s0.user_id = uid) (hempty : s0.messages = []) :
    ∀ N, ∃ s',
      (iterateAsk envs qs sid uid N (store, mem)).1.find? (sessionMatches sid none) = some s' ∧
      s'.user_id = uid ∧ rolesOf s'.messages = userAiPairs N := by
  intro N
  induction N with
  | zero => exact ⟨s0, hfind, howner, by simp [hempty, rolesOf, userAiPairs]⟩
  | succ n ih =>
      obtain ⟨s', hf, ho, hr⟩ := ih
      have hv := (askSession_valid (envs n) (iterateAsk envs qs sid uid n (store, mem)).1
        (iterateAsk envs qs sid uid n (store, mem)).2 sid uid (qs n) s' hf ho).2.1
      refine ⟨{ s' with
          title := if s'.messages.isEmpty then generate_title (envs n).titleResp (qs n)
                   else s'.title,
          messages := s'.messages ++
            [buildMessage "user" (qs n) (envs n).tUser [],
             buildMessage "ai"
               (generate_response (envs n)
                 (seedMemory (iterateAsk envs qs sid uid n (store, mem)).2 s'.messages)
                 (qs n)).1.response
               (envs n).tAi
               (orchestratorMeta
                 (generate_response (envs n)
                   (seedMemory (iterateAsk envs qs sid uid n (store, mem)).2 s'.messages)
                   (qs n)).1.sources)] }, ?_, ho, ?_⟩
      · simp only [iterateAsk]
        exact hv
      · simp only [rolesOf, List.map_append, List.map_cons, List.map_nil]
        have hr' : List.map (fun m => pyGet m "role") s'.messages = userAiPairs n := hr
        rw [hr', pyGet_role_user, pyGet_role_ai]
        rfl

/-! ### Concrete fixtures for witnesses and the counterexample -/

/-- An environment whose providers all succeed on the first round. -/
def envFirst : Env :=
  { titleResp := Except.ok "AI Regulation",
    agentSteps := fun _ => ProviderStep.finalAnswer "Here is the news.",
    serperResp := fun _ => Except.ok [], tUser := 1, tAi := 2 }

/-- A succeeding environment whose title provider emits a different
label. -/
def envSecond : Env :=
  { titleResp := Except.ok "Second Title",
    agentSteps := fun _ => ProviderStep.finalAnswer "More news.",
    serperResp := fun _ => Except.ok [], tUser := 3, tAi := 4 }

/-- An environment whose Generation Provider requests a tool action at
every round and never emits a final answer. -/
def loopingEnv : Env :=
  { titleResp := Except.ok "t",
    agentSteps := fun _ => ProviderStep.toolAction "x",
    serperResp := fun _ => Except.ok [], tUser := 0, tAi := 1 }

/-- A freshly created session, as `create_session` stores it. -/
def sessOne : Session :=
  { session_id := "s1", user_id := "u1", title := "New Conversation", messages := [],
    created_at := 0 }

/-- A one-session store holding `sessOne`. -/
def storeOne : List Session := [sessOne]

/-- A session with a persisted history of user/ai/unknown-role messages. -/
def histSess : Session :=
  { session_id := "s2", user_id := "u2", title := "T",
    messages := [buildMessage "user" "a" 1 [], buildMessage "ai" "b" 2 [],
                 buildMessage "system" "c" 3 []],
    created_at := 0 }

/-- The store after one successful `ask_session` turn on `storeOne`. -/
def storeAfterFirstAsk : List Session :=
  (askSession envFirst storeOne [] "s1" "u1" "first question").2.1

/-- The session document of `storeAfterFirstAsk`. -/
def sessAfterFirstAsk : Session :=
  (storeAfterFirstAsk.find? (sessionMatches "s1" (some "u1"))).getD sessOne

/-- `storeAfterFirstAsk` after a `ClearSession` call by the owner. -/
def storeAfterClear : List Session := clear_messages storeAfterFirstAsk "s1" (some "u1")

/-! ### Claims -/

/-- C1: for every existing session owned by the caller, `ask_session`
first clears Agent Memory and then replays the persisted history in
order, so that after replay the memory is exactly the persisted message
sequence in stored order — independent of any prior (stale) memory
content, with no duplicates — where messages whose role is outside
{user, ai} (the code's encoding of {user, assistant}) are ignored.
`askSession` applies `seedMemory` to exactly this
`get_messages store sid (some uid)` history before generating. -/
theorem C1_replay_exact (store : List Session) (mem : List ChatMsg) (sid uid : String)
    (s : Session) (hfind : store.find? (sessionMatches sid none) = some s)
    (howner : s.user_id = uid) :
    seedMemory mem (get_messages store sid (some uid)) = s.messages.filterMap chatOf := by
  rw [get_messages_of_owner store sid uid s hfind howner, seedMemory_eq]

/-- Witness for C1 at a concrete session whose history holds a user
message, an ai message and a message with an unknown role, replayed
over a non-empty stale memory. -/
theorem C1_witness :
    ([histSess].find? (sessionMatches "s2" none) = some histSess ∧
      histSess.user_id = "u2") ∧
    seedMemory [ChatMsg.ai (PyVal.str "stale")] (get_messages [histSess] "s2" (some "u2")) =
      histSess.messages.filterMap chatOf :=
  ⟨⟨rfl, rfl⟩,
   C1_replay_exact [histSess] [ChatMsg.ai (PyVal.str "stale")] "s2" "u2" histSess rfl rfl⟩

/-- C2: starting from a session with an empty message list owned by the
caller, after `N` `ask_session` turns (no other mutations interleaved)
the persisted message sequence has exactly `2N` entries whose roles
alternate user/ai (the code's encoding of user/assistant), starting
with user. -/
theorem C2_transcript_shape (envs : Nat → Env) (qs : Nat → String) (sid uid : String)
    (store : List Session) (mem : List ChatMsg) (s0 : Session)
    (hfind : store.find? (sessionMatches sid none) = some s0)
    (howner : s0.user_id = uid) (hempty : s0.messages = []) (N : Nat) :
    (storedMessages (iterateAsk envs qs sid uid N (store, mem)).1 sid).length = 2 * N ∧
    rolesOf (storedMessages (iterateAsk envs qs sid uid N (store, mem)).1 sid) =
      userAiPairs N := by
  obtain ⟨s', hf, _, hr⟩ :=
    iterateAsk_invariant envs qs sid uid store mem s0 hfind howner hempty N
  have hm : storedMessages (iterateAsk envs qs sid uid N (store, mem)).1 sid = s'.messages := by
    unfold storedMessages
    rw [hf]
  rw [hm]
  refine ⟨?_, hr⟩
  have hlen := congrArg List.length hr
  simpa [rolesOf, userAiPairs_length] using hlen

/-- Witness for C2: two turns on a fresh session yield four messages
with roles user, ai, user, ai. -/
theorem C2_witness :
    (storeOne.find? (sessionMatches "s1" none) = some sessOne ∧
      sessOne.user_id = "u1" ∧ sessOne.messages = []) ∧
    ((storedMessages (iterateAsk (fun _ => envFirst) (fun _ => "q") "s1" "u1" 2
        (storeOne, [])).1 "s1").length = 2 * 2 ∧
      rolesOf (storedMessages (iterateAsk (fun _ => envFirst) (fun _ => "q") "s1" "u1" 2
        (storeOne, [])).1 "s1") = userAiPairs 2) :=
  ⟨⟨rfl, rfl, rfl⟩,
   C2_transcript_shape (fun _ => envFirst) (fun _ => "q") "s1" "u1" storeOne [] sessOne
     rfl rfl rfl 2⟩

/-- C3: `ask_session` fails with NotFound when the session id does not
exist and with Unauthorized when the stored owner differs from the
supplied `user_id`; in both error cases the store and the agent memory
are returned unchanged (no message appended to any session). -/
theorem C3_validation_errors (env : Env) (store : List Session) (mem : List ChatMsg)
    (sid uid query : String) :
    (store.find? (sessionMatches sid none) = none →
      askSession env store mem sid uid query = (AskResp.notFound, store, mem)) ∧
    (∀ s, store.find? (sessionMatches sid none) = some s → s.user_id ≠ uid →
      askSession env store mem sid uid query = (AskResp.unauthorized, store, mem)) := by
  constructor
  · intro h
    simp [askSession, h]
  · intro s h hne
    simp [askSession, h, hne]

/-- Witness for C3: a missing session id yields NotFound and a wrong
owner yields Unauthorized, both leaving the store untouched. -/
theorem C3_witness :
    (storeOne.find? (sessionMatches "nope" none) = none ∧
      askSession envFirst storeOne [] "nope" "u1" "q" = (AskResp.notFound, storeOne, [])) ∧
    (storeOne.find? (sessionMatches "s1" none) = some sessOne ∧ sessOne.user_id ≠ "u2" ∧
      askSession envFirst storeOne [] "s1" "u2" "q" = (AskResp.unauthorized, storeOne, [])) :=
  ⟨⟨rfl, (C3_validation_errors envFirst storeOne [] "nope" "u1" "q").1 rfl⟩,
   ⟨rfl, by decide,
    (C3_validation_errors envFirst storeOne [] "s1" "u2" "q").2 sessOne rfl (by decide)⟩⟩

/-- C4 counterexample: the first turn on a fresh session stores and
returns the generated title, but after the owner clears the messages
the next `ask_session` — a subsequent call on the same session — again
returns a `title` field and overwrites the stored title, with no
explicit title update in between.  This refutes the claim that after
the first turn no subsequent call returns a title and the stored title
is unchanged. -/
theorem C4_counterexample :
    (askSession envFirst storeOne [] "s1" "u1" "first question").1.titleField =
        some "AI Regulation" ∧
    storedTitle storeAfterClear "s1" = some "AI Regulation" ∧
    (askSession envSecond storeAfterClear [] "s1" "u1" "second question").1.titleField =
        some "Second Title" ∧
    storedTitle
        (askSession envSecond storeAfterClear [] "s1" "u1" "second question").2.1 "s1" =
      some "Second Title" :=
  ⟨rfl, rfl, rfl, rfl⟩

/-- C4 (amended): title generation is keyed to empty history, not to
the first call only.  Every `ask_session` that finds an empty persisted
history (the first call, and any call after the history was cleared)
generates a title, persists it and returns it in a `title` field; every
`ask_session` that finds a non-empty history returns no `title` field
and leaves the stored title unchanged (unless explicitly updated). -/
theorem C4_amended_title_on_empty_history (env : Env) (store : List Session)
    (mem : List ChatMsg) (sid uid query : String) (s : Session)
    (hfind : store.find? (sessionMatches sid none) = some s)
    (howner : s.user_id = uid) :
    (s.messages = [] →
      (askSession env store mem sid uid query).1.titleField =
          some (generate_title env.titleResp query) ∧
      storedTitle (askSession env store mem sid uid query).2.1 sid =
          some (generate_title env.titleResp query)) ∧
    (s.messages ≠ [] →
      (askSession env store mem sid uid query).1.titleField = none ∧
      storedTitle (askSession env store mem sid uid query).2.1 sid = some s.title) := by
  have hv := askSession_valid env store mem sid uid query s hfind howner
  constructor
  · intro he
    have hE : s.messages.isEmpty = true := by simp [he]
    constructor
    · rw [hv.1]
      simp [AskResp.titleField, hE]
    · unfold storedTitle
      rw [hv.2.1]
      simp [hE]
  · intro he
    have hE : s.messages.isEmpty = false := by
      cases hm : s.messages with
      | nil => exact absurd hm he
      | cons a t => rfl
    constructor
    · rw [hv.1]
      simp [AskResp.titleField, hE]
    · unfold storedTitle
      rw [hv.2.1]
      simp [hE]

/-- Witness for the amended C4 at a fresh session with empty history. -/
theorem C4_amended_witness :
    (storeOne.find? (sessionMatches "s1" none) = some sessOne ∧ sessOne.user_id = "u1") ∧
    ((sessOne.messages = [] →
      (askSession envFirst storeOne [] "s1" "u1" "q").1.titleField =
          some (generate_title envFirst.titleResp "q") ∧
      storedTitle (askSession envFirst storeOne [] "s1" "u1" "q").2.1 "s1" =
          some (generate_title envFirst.titleResp "q")) ∧
    (sessOne.messages ≠ [] →
      (askSession envFirst storeOne [] "s1" "u1" "q").1.titleField = none ∧
      storedTitle (askSession envFirst storeOne [] "s1" "u1" "q").2.1 "s1" =
          some sessOne.title)) :=
  ⟨⟨rfl, rfl⟩,
   C4_amended_title_on_empty_history envFirst storeOne [] "s1" "u1" "q" sessOne rfl rfl⟩

/-- C5: whenever the Generation Provider emits no final answer within
the 3 configured rounds — it always requests another tool action, or
its output is unparsable, or the call fails — `generate_response`
returns `success=false` with the fixed user-safe apology string and
leaves agent memory untouched; being a total function it never raises
to the caller. -/
theorem C5_generate_response_graceful (env : Env) (mem : List ChatMsg) (query : String)
    (h : ∀ i, i < 3 → (env.agentSteps i).isFinal = false) :
    (generate_response env mem query).1.success = false ∧
    (generate_response env mem query).1.response = apology ∧
    (generate_response env mem query).2 = mem := by
  obtain ⟨e, he⟩ := reactRounds_error env 3 0 (fun j hj => by simpa using h j hj)
  simp [generate_response, runAgentExecutor, he]

/-- Witness for C5: a provider that requests a tool action at every
round exhausts the loop and yields the apology. -/
theorem C5_witness :
    (∀ i, i < 3 → (loopingEnv.agentSteps i).isFinal = false) ∧
    ((generate_response loopingEnv [] "query").1.success = false ∧
     (generate_response loopingEnv [] "query").1.response = apology ∧
     (generate_response loopingEnv [] "query").2 = []) :=
  ⟨by decide, C5_generate_response_graceful loopingEnv [] "query" (by decide)⟩

/-- C6: on every validated `ask_session` turn the session's stored
transcript gains exactly the user message (the raw query, persisted by
the `add_message` call sequenced before `generate_response` is invoked)
followed by the assistant message holding the generation result's
response text — for every provider behaviour, including generation
failure, in which case the recorded assistant turn is the apology
text.  Persistence is never skipped. -/
theorem C6_persistence_never_skipped (env : Env) (store : List Session)
    (mem : List ChatMsg) (sid uid query : String) (s : Session)
    (hfind : store.find? (sessionMatches sid none) = some s)
    (howner : s.user_id = uid) :
    storedMessages (askSession env store mem sid uid query).2.1 sid =
      s.messages ++
        [buildMessage "user" query env.tUser [],
         buildMessage "ai"
           (generate_response env (seedMemory mem s.messages) query).1.response env.tAi
           (orchestratorMeta
             (generate_response env (seedMemory mem s.messages) query).1.sources)] ∧
    ((generate_response env (seedMemory mem s.messages) query).1.success = false →
      (generate_response env (seedMemory mem s.messages) query).1.response = apology) := by
  have hv := askSession_valid env store mem sid uid query s hfind howner
  constructor
  · unfold storedMessages
    rw [hv.2.1]
  · exact generate_response_failure env (seedMemory mem s.messages) query

/-- Witness for C6 on a fresh session under a failing generation
environment: user and assistant messages are both persisted and the
assistant content is the apology. -/
theorem C6_witness :
    (storeOne.find? (sessionMatches "s1" none) = some sessOne ∧ sessOne.user_id = "u1") ∧
    (storedMessages (askSession loopingEnv storeOne [] "s1" "u1" "q").2.1 "s1" =
      sessOne.messages ++
        [buildMessage "user" "q" loopingEnv.tUser [],
         buildMessage "ai"
           (generate_response loopingEnv (seedMemory [] sessOne.messages) "q").1.response
           loopingEnv.tAi
           (orchestratorMeta
             (generate_response loopingEnv (seedMemory [] sessOne.messages) "q").1.sources)] ∧
    ((generate_response loopingEnv (seedMemory [] sessOne.messages) "q").1.success = false →
      (generate_response loopingEnv (seedMemory [] sessOne.messages) "q").1.response =
        apology)) :=
  ⟨⟨rfl, rfl⟩,
   C6_persistence_never_skipped loopingEnv storeOne [] "s1" "u1" "q" sessOne rfl rfl⟩

/-- C7: `generate_title` always returns at most 30 characters; on
provider success the result is the stripped provider label with all
double and single quotes removed, truncated to 27 characters plus an
ellipsis when it exceeds 30; on any provider failure it returns the
deterministic fallback — the first 27 characters of the query plus an
ellipsis, or the query verbatim when its length is at most 30.  As a
total function it never raises to the caller. -/
theorem C7_generate_title_bounded (resp : Except String String) (query : String)
    (content e : String) :
    (generate_title resp query).length ≤ 30 ∧
    '"' ∉ (generate_title (Except.ok content) query).toList ∧
    '\'' ∉ (generate_title (Except.ok content) query).toList ∧
    generate_title (Except.error e) query =
      (if query.length > 30 then String.mk (query.toList.take 27 ++ ['.', '.', '.'])
       else query) := by
  refine ⟨?_, ?_, ?_, ?_⟩
  · cases resp <;> exact truncate30_length _
  · exact not_mem_truncate30 _ _
      (not_mem_removeAll_of _ _ _ (not_mem_removeAll _ _)) (by decide)
  · exact not_mem_truncate30 _ _ (not_mem_removeAll _ _) (by decide)
  · show String.mk (truncate30 query.toList) = _
    unfold truncate30
    have hq : query.toList.length = query.length := rfl
    rw [hq]
    split
    · rfl
    · rfl

/-- C8: `clear_messages` is idempotent: after the first call the
scoped session's stored message list is empty while its title and all
other fields are unchanged, and a second call leaves the whole store
exactly as the first left it (so the message list is empty after each
call). -/
theorem C8_clear_idempotent (store : List Session) (sid : String) (uid : Option String)
    (s : Session) (hfind : store.find? (sessionMatches sid uid) = some s) :
    (clear_messages store sid uid).find? (sessionMatches sid uid) =
        some { s with messages := [] } ∧
    clear_messages (clear_messages store sid uid) sid uid = clear_messages store sid uid := by
  refine ⟨find?_clear_messages store sid uid s hfind, ?_⟩
  exact updateFirst_idem (sessionMatches sid uid) (fun x => { x with messages := [] })
    (fun _ => rfl) (fun _ => rfl) store

/-- Witness for C8 on the store produced by one real turn (non-empty
message list, generated title). -/
theorem C8_witness :
    storeAfterFirstAsk.find? (sessionMatches "s1" (some "u1")) = some sessAfterFirstAsk ∧
    ((clear_messages storeAfterFirstAsk "s1" (some "u1")).find?
        (sessionMatches "s1" (some "u1")) =
      some { sessAfterFirstAsk with messages := [] } ∧
    clear_messages (clear_messages storeAfterFirstAsk "s1" (some "u1")) "s1" (some "u1") =
      clear_messages storeAfterFirstAsk "s1" (some "u1")) :=
  ⟨rfl, C8_clear_idempotent storeAfterFirstAsk "s1" (some "u1") sessAfterFirstAsk rfl⟩

/-- C9: the retrieval search returns an ordered list of at most
`limit` items — a prefix of the provider's ranked result list — and on
any provider error it returns the empty list; as a total function it
never raises an exception. -/
theorem C9_serper_search_bounded (resp : Except String (List PyVal)) (limit : Nat) :
    (serperSearch resp limit).length ≤ limit ∧
    (∀ e, serperSearch (Except.error e) limit = []) ∧
    (∀ organic, serperSearch (Except.ok organic) limit <+: organic) := by
  refine ⟨?_, fun e => rfl, fun organic => List.take_prefix limit organic⟩
  cases resp with
  | error e => simp [serperSearch]
  | ok organic =>
      simp only [serperSearch, List.length_take]
      omega

/-- C10: `add_message` merges a non-empty metadata dict into the
message document at top level — a metadata key named role, content or
timestamp overwrites the corresponding field — and the orchestrator's
sources metadata (`orchestratorMeta`, passed by `askSession` to
`add_message` for the assistant turn) lands as a top-level `sources`
key with no nested `metadata` field. -/
theorem C10_metadata_merged_top_level (role content : String) (t : Nat) (v : PyVal)
    (l : List PyVal) (x : PyVal) :
    pyGet (buildMessage role content t [("role", v)]) "role" = some v ∧
    pyGet (buildMessage role content t [("content", v)]) "content" = some v ∧
    pyGet (buildMessage role content t [("timestamp", v)]) "timestamp" = some v ∧
    orchestratorMeta (some (x :: l)) = [("sources", PyVal.list (x :: l))] ∧
    buildMessage role content t [("sources", v)] =
      [("role", PyVal.str role), ("content", PyVal.str content), ("timestamp", PyVal.time t),
       ("sources", v)] ∧
    pyGet (buildMessage role content t [("sources", v)]) "metadata" = none :=
  ⟨rfl, rfl, rfl, rfl, rfl, rfl⟩
